import Mathlib

/-!
Verification of the DomoHub plugin/device integration runtime
(`src/plugins/base.py`, `src/plugins/manager.py`, and the two example
plugins `philips_hue.py` and `xiaomi_sensors.py`).

The Python code is shallowly embedded: Python dicts become insertion-ordered
association lists with the usual dict operations, stateful methods become
pure functions from the object state to (new state, return value, emitted
events), and Python exceptions become `Except PyErr`.  Name resolution in
the two example plugin modules is modelled explicitly, because those modules
use the name `PluginStatus` without importing it.
-/

namespace DomoHub

/-- Python exception values that the embedded code can raise. -/
inductive PyErr where
  | nameError (n : String)
  | exc (msg : String)
  deriving DecidableEq, Repr

/-- Python values stored in a device property map. -/
inductive PyValue where
  | pynone
  | pybool (b : Bool)
  | pyint (n : Int)
  | pystr (s : String)
  deriving DecidableEq, Repr

/-- A Python `Dict[str, Any]` property map, as an association list. -/
abbrev Props := List (String × PyValue)

/-- `PluginStatus` from `src/plugins/base.py`. -/
inductive PluginStatus where
  | loaded
  | running
  | stopped
  | error
  | disabled
  deriving DecidableEq, Repr

/-- `DeviceInfo` from `src/plugins/base.py`: the static device descriptor. -/
structure DeviceInfo where
  id : String
  name : String
  manufacturer : Option String := none
  model : Option String := none
  firmware_version : Option String := none
  capabilities : List String := []
  properties : Props := []
  room : Option String := none
  deriving DecidableEq, Repr

/-- `DeviceState` from `src/plugins/base.py`: the dynamic state snapshot. -/
structure DeviceState where
  device_id : String
  properties : Props
  last_updated : Nat
  online : Bool
  deriving DecidableEq, Repr

/-- Events constructed by `BasePlugin._emit_event`, with the payload parts
the claims talk about. -/
inductive PEvent where
  | device_added (id : String)
  | device_removed (id : String)
  | state_changed (id : String) (props : Props)
  | action_executed (id : String) (action : String)
  | error (msg : String)
  deriving DecidableEq, Repr

/-! ### Python dict operations on association lists

A Python dict is insertion ordered and key unique.  `dictSet` on an existing
key updates the entry in place; on a fresh key it appends. -/

/-- `d.get(k)` / `d[k]`. -/
def dictGet {α : Type} (d : List (String × α)) (k : String) : Option α :=
  match d with
  | [] => none
  | (k2, v) :: rest => if k2 = k then some v else dictGet rest k

/-- `d[k] = v`. -/
def dictSet {α : Type} (d : List (String × α)) (k : String) (v : α) :
    List (String × α) :=
  match d with
  | [] => [(k, v)]
  | (k2, v2) :: rest =>
      if k2 = k then (k2, v) :: rest else (k2, v2) :: dictSet rest k v

/-- `del d[k]` (removes the first entry with key `k`). -/
def dictDel {α : Type} (d : List (String × α)) (k : String) :
    List (String × α) :=
  match d with
  | [] => []
  | (k2, v2) :: rest => if k2 = k then rest else (k2, v2) :: dictDel rest k

/-- `k in d`. -/
def dictContains {α : Type} (d : List (String × α)) (k : String) : Bool :=
  (dictGet d k).isSome

theorem dictGet_dictSet_self {α : Type} (d : List (String × α)) (k : String)
    (v : α) : dictGet (dictSet d k v) k = some v := by
  induction d with
  | nil => simp [dictGet, dictSet]
  | cons hd tl ih =>
      obtain ⟨k2, v2⟩ := hd
      by_cases h : k2 = k
      · simp [dictGet, dictSet, h]
      · simp [dictGet, dictSet, h, ih]

theorem dictGet_dictSet_ne {α : Type} (d : List (String × α)) (k k2 : String)
    (v : α) (h : k ≠ k2) : dictGet (dictSet d k v) k2 = dictGet d k2 := by
  induction d with
  | nil => simp [dictGet, dictSet, h]
  | cons hd tl ih =>
      obtain ⟨k3, v3⟩ := hd
      by_cases h3 : k3 = k
      · subst h3
        simp [dictGet, dictSet, h]
      · simp [dictGet, dictSet, h3, ih]

theorem dictGet_dictDel_ne {α : Type} (d : List (String × α)) (k k2 : String)
    (h : k ≠ k2) : dictGet (dictDel d k) k2 = dictGet d k2 := by
  induction d with
  | nil => simp [dictGet, dictDel]
  | cons hd tl ih =>
      obtain ⟨k3, v3⟩ := hd
      by_cases h3 : k3 = k
      · subst h3
        simp [dictGet, dictDel, h]
      · simp [dictGet, dictDel, h3, ih]

theorem dictGet_eq_none_of_not_mem {α : Type} (d : List (String × α))
    (k : String) (h : k ∉ d.map Prod.fst) : dictGet d k = none := by
  induction d with
  | nil => rfl
  | cons hd tl ih =>
      obtain ⟨k2, v2⟩ := hd
      simp only [List.map_cons, List.mem_cons] at h
      push_neg at h
      have hne : ¬k2 = k := fun h2 => h.1 h2.symm
      simp only [dictGet, hne, if_false]
      exact ih h.2

theorem not_mem_keys_dictDel {α : Type} (d : List (String × α)) (k : String)
    (hnd : (d.map Prod.fst).Nodup) : k ∉ (dictDel d k).map Prod.fst := by
  induction d with
  | nil => simp [dictDel]
  | cons hd tl ih =>
      obtain ⟨k2, v2⟩ := hd
      simp only [List.map_cons, List.nodup_cons] at hnd
      by_cases h2 : k2 = k
      · subst h2
        simp only [dictDel, if_pos rfl]
        exact hnd.1
      · simp only [dictDel, if_neg h2, List.map_cons, List.mem_cons]
        push_neg
        exact ⟨fun h => h2 h.symm, ih hnd.2⟩

theorem dictGet_dictDel_self {α : Type} (d : List (String × α)) (k : String)
    (hnd : (d.map Prod.fst).Nodup) : dictGet (dictDel d k) k = none :=
  dictGet_eq_none_of_not_mem _ _ (not_mem_keys_dictDel d k hnd)

theorem dictGet_isSome_of_mem {α : Type} {d : List (String × α)}
    {p : String × α} (hp : p ∈ d) : (dictGet d p.1).isSome := by
  induction d with
  | nil => cases hp
  | cons hd tl ih =>
      obtain ⟨k2, v2⟩ := hd
      rcases List.mem_cons.mp hp with h | h
      · subst h
        simp [dictGet]
      · by_cases hk : k2 = p.1
        · simp [dictGet, hk]
        · simp only [dictGet, hk, if_false]
          exact ih h

theorem dictGet_mem {α : Type} {d : List (String × α)} {k : String} {v : α}
    (h : dictGet d k = some v) : (k, v) ∈ d := by
  induction d with
  | nil => simp [dictGet] at h
  | cons hd tl ih =>
      obtain ⟨k2, v2⟩ := hd
      by_cases hk : k2 = k
      · subst hk
        have hv : dictGet ((k2, v2) :: tl) k2 = some v2 := by simp [dictGet]
        rw [hv] at h
        cases h
        exact List.mem_cons_self _ _
      · simp only [dictGet, hk, if_false] at h
        exact List.mem_cons_of_mem _ (ih h)

theorem keys_dictSet {α : Type} (d : List (String × α)) (k : String) (v : α) :
    (dictSet d k v).map Prod.fst =
      if k ∈ d.map Prod.fst then d.map Prod.fst
      else d.map Prod.fst ++ [k] := by
  induction d with
  | nil => simp [dictSet]
  | cons hd tl ih =>
      obtain ⟨k2, v2⟩ := hd
      by_cases h2 : k2 = k
      · subst h2
        simp [dictSet]
      · simp only [dictSet, if_neg h2, List.map_cons, ih, List.mem_cons]
        have hne : ¬k = k2 := fun h => h2 h.symm
        by_cases hmem : k ∈ tl.map Prod.fst
        · simp [hmem, hne]
        · simp [hmem, hne]

theorem keys_dictSet_nodup {α : Type} (d : List (String × α)) (k : String)
    (v : α) (hnd : (d.map Prod.fst).Nodup) :
    ((dictSet d k v).map Prod.fst).Nodup := by
  rw [keys_dictSet]
  by_cases hmem : k ∈ d.map Prod.fst
  · simpa [hmem] using hnd
  · simp only [hmem, if_false]
    exact List.Nodup.append hnd (List.nodup_singleton k)
      (by simpa using hmem)

theorem keys_dictDel_sublist {α : Type} (d : List (String × α)) (k : String) :
    ((dictDel d k).map Prod.fst).Sublist (d.map Prod.fst) := by
  induction d with
  | nil => simp [dictDel]
  | cons hd tl ih =>
      obtain ⟨k2, v2⟩ := hd
      by_cases h2 : k2 = k
      · simp only [dictDel, if_pos h2, List.map_cons]
        exact List.sublist_cons_self _ _
      · simp only [dictDel, if_neg h2, List.map_cons]
        exact ih.cons₂ k2

theorem keys_dictDel_nodup {α : Type} (d : List (String × α)) (k : String)
    (hnd : (d.map Prod.fst).Nodup) : ((dictDel d k).map Prod.fst).Nodup :=
  (keys_dictDel_sublist d k).nodup hnd

/-! ### The per-instance registry and state model (`BasePlugin`)

`BasePlugin.__init__` sets `status = LOADED`, `devices = {}` and
`device_states = {}`.  Each method returns the updated object state, its
Python return value, and the list of events it passed to `_emit_event`.
Timestamps (`datetime.utcnow().isoformat()`) are modelled as a `Nat`
argument `now` supplied by the clock. -/

/-- The mutable state of a `BasePlugin` object that the registry operations
touch. -/
structure PluginState where
  status : PluginStatus
  devices : List (String × DeviceInfo)
  device_states : List (String × DeviceState)
  deriving DecidableEq, Repr

/-- `BasePlugin.__init__`: fresh instance. -/
def initState : PluginState :=
  { status := PluginStatus.loaded, devices := [], device_states := [] }

/-- `BasePlugin.add_device` (base.py lines 117-125): stores the descriptor
under `device.id` unconditionally, emits `device_added`, returns `True`.
Nothing in the body can raise, so the `except` branch is dead. -/
def addDevice (s : PluginState) (d : DeviceInfo) :
    PluginState × Bool × List PEvent :=
  ({ s with devices := dictSet s.devices d.id d }, true,
    [PEvent.device_added d.id])

/-- `BasePlugin.remove_device` (base.py lines 127-139): when the id is
registered, deletes the descriptor, deletes the state if present, emits
`device_removed` and returns `True`; otherwise returns `False`. -/
def removeDevice (s : PluginState) (device_id : String) :
    PluginState × Bool × List PEvent :=
  if dictContains s.devices device_id then
    let s1 := { s with devices := dictDel s.devices device_id }
    let s2 :=
      if dictContains s1.device_states device_id then
        { s1 with device_states := dictDel s1.device_states device_id }
      else s1
    (s2, true, [PEvent.device_removed device_id])
  else (s, false, [])

/-- `BasePlugin.get_device_state` (base.py lines 141-143). -/
def getDeviceState (s : PluginState) (device_id : String) :
    Option DeviceState :=
  dictGet s.device_states device_id

/-- `BasePlugin.update_device_state` (base.py lines 145-166): returns
`False` when the id is not in `devices`; otherwise builds a fresh
`DeviceState` stamped `now` with `online=True` and exactly the supplied
property map, stores it, emits `state_changed`, returns `True`. -/
def updateDeviceState (s : PluginState) (device_id : String) (properties : Props)
    (now : Nat) : PluginState × Bool × List PEvent :=
  if dictContains s.devices device_id then
    let st : DeviceState :=
      { device_id := device_id, properties := properties,
        last_updated := now, online := true }
    ({ s with device_states := dictSet s.device_states device_id st }, true,
      [PEvent.state_changed device_id properties])
  else (s, false, [])

/-- The fields of the dict returned by `BasePlugin.health_check`
(base.py lines 221-228). -/
structure HealthReport where
  status : PluginStatus
  devices_count : Nat
  online_devices : Nat
  deriving DecidableEq, Repr

/-- `BasePlugin.health_check`: counts devices and the states whose
`online` flag is set. -/
def healthCheck (s : PluginState) : HealthReport :=
  { status := s.status,
    devices_count := s.devices.length,
    online_devices := (s.device_states.filter (fun p => p.2.online)).length }

/-! ### Registry operation traces

The registry is only written by `add_device`, `remove_device` and
`update_device_state`; a trace of those operations describes every
reachable registry state. -/

/-- One registry-mutating call. -/
inductive RegOp where
  | add (d : DeviceInfo)
  | remove (device_id : String)
  | update (device_id : String) (properties : Props) (now : Nat)
  deriving DecidableEq, Repr

/-- Apply one call, discarding return value and events. -/
def applyOp (s : PluginState) (op : RegOp) : PluginState :=
  match op with
  | RegOp.add d => (addDevice s d).1
  | RegOp.remove id => (removeDevice s id).1
  | RegOp.update id p now => (updateDeviceState s id p now).1

/-- Run a trace of registry calls from a state. -/
def runOps (s : PluginState) (ops : List RegOp) : PluginState :=
  ops.foldl applyOp s

/-- Registry well-formedness: both dicts have unique keys (as Python dicts
do), and every id with a recorded state is a registered device. -/
def GoodState (s : PluginState) : Prop :=
  (s.devices.map Prod.fst).Nodup ∧
  (s.device_states.map Prod.fst).Nodup ∧
  ∀ p ∈ s.device_states, (dictGet s.devices p.1).isSome

theorem goodState_init : GoodState initState := by
  refine ⟨List.nodup_nil, List.nodup_nil, ?_⟩
  intro p hp
  cases hp

theorem mem_of_mem_dictDel {α : Type} {d : List (String × α)} {k : String}
    {p : String × α} (hp : p ∈ dictDel d k) : p ∈ d := by
  induction d with
  | nil => simp [dictDel] at hp
  | cons hd tl ih =>
      obtain ⟨k2, v2⟩ := hd
      by_cases h2 : k2 = k
      · simp only [dictDel, if_pos h2] at hp
        exact List.mem_cons_of_mem _ hp
      · simp only [dictDel, if_neg h2] at hp
        rcases List.mem_cons.mp hp with h | h
        · exact h ▸ List.mem_cons_self _ _
        · exact List.mem_cons_of_mem _ (ih h)

theorem mem_dictSet_cases {α : Type} {d : List (String × α)} {k : String}
    {v : α} {q : String × α} (hq : q ∈ dictSet d k v) :
    q = (k, v) ∨ q ∈ d := by
  induction d with
  | nil =>
      simp only [dictSet, List.mem_singleton] at hq
      exact Or.inl hq
  | cons hd tl ih =>
      obtain ⟨k2, v2⟩ := hd
      by_cases h2 : k2 = k
      · simp only [dictSet, if_pos h2] at hq
        rcases List.mem_cons.mp hq with h | h
        · exact Or.inl (by rw [h, h2])
        · exact Or.inr (List.mem_cons_of_mem _ h)
      · simp only [dictSet, if_neg h2] at hq
        rcases List.mem_cons.mp hq with h | h
        · exact Or.inr (h ▸ List.mem_cons_self _ _)
        · rcases ih h with h | h
          · exact Or.inl h
          · exact Or.inr (List.mem_cons_of_mem _ h)

theorem goodState_applyOp (s : PluginState) (op : RegOp)
    (hs : GoodState s) : GoodState (applyOp s op) := by
  obtain ⟨hdev, hst, hsub⟩ := hs
  cases op with
  | add d =>
      simp only [applyOp, addDevice]
      refine ⟨keys_dictSet_nodup _ _ _ hdev, hst, ?_⟩
      intro p hp
      by_cases hid : d.id = p.1
      · rw [← hid, dictGet_dictSet_self]
        rfl
      · rw [dictGet_dictSet_ne _ _ _ _ hid]
        exact hsub p hp
  | remove did =>
      simp only [applyOp, removeDevice]
      by_cases hc : dictContains s.devices did
      · rw [if_pos hc]
        by_cases hc2 : dictContains s.device_states did
        · rw [if_pos hc2]
          refine ⟨keys_dictDel_nodup _ _ hdev, keys_dictDel_nodup _ _ hst, ?_⟩
          intro p hp
          have hp2 : p ∈ s.device_states := mem_of_mem_dictDel hp
          have hne : did ≠ p.1 := by
            intro h
            have h1 : dictGet (dictDel s.device_states did) did = none :=
              dictGet_dictDel_self _ _ hst
            have h2 := dictGet_isSome_of_mem hp
            rw [← h] at h2
            rw [h1] at h2
            cases h2
          rw [dictGet_dictDel_ne _ _ _ hne]
          exact hsub p hp2
        · rw [if_neg hc2]
          refine ⟨keys_dictDel_nodup _ _ hdev, hst, ?_⟩
          intro p hp
          have hne : did ≠ p.1 := by
            intro h
            have h2 := dictGet_isSome_of_mem hp
            rw [← h] at h2
            simp [dictContains, h2] at hc2
          rw [dictGet_dictDel_ne _ _ _ hne]
          exact hsub p hp
      · rw [if_neg hc]
        exact ⟨hdev, hst, hsub⟩
  | update did p now =>
      simp only [applyOp, updateDeviceState]
      by_cases hc : dictContains s.devices did
      · simp only [hc, if_true]
        refine ⟨hdev, keys_dictSet_nodup _ _ _ hst, ?_⟩
        intro q hq
        rcases mem_dictSet_cases hq with h | h
        · rw [h]
          exact hc
        · exact hsub q h
      · simp only [hc, if_false]
        exact ⟨hdev, hst, hsub⟩

theorem goodState_runOps_of (s : PluginState) (ops : List RegOp)
    (hs : GoodState s) : GoodState (runOps s ops) := by
  induction ops generalizing s with
  | nil => exact hs
  | cons op rest ih => exact ih _ (goodState_applyOp s op hs)

theorem goodState_runOps (ops : List RegOp) :
    GoodState (runOps initState ops) :=
  goodState_runOps_of _ _ goodState_init

/-! ### Event dispatch (`BasePlugin._emit_event`, base.py lines 202-219)

`_emit_event` runs `for handler in self._event_handlers:` over the LIVE
list — no copy is taken — and wraps each call in `try/except` whose body
is `pass` (no logging call).  A Python `for` over a list is index based:
it reads `handlers[i]` for `i = 0, 1, ...` against the current list, so a
handler that mutates the list changes the iteration.

Handlers are modelled by what they do to the handler list when invoked:
nothing, append a new plain handler, remove a handler by id, or raise. -/

/-- An event subscriber, identified by `hid`, together with the effect its
body has when it is invoked during an emission. -/
inductive Handler where
  | plain (hid : Nat)
  | adder (hid : Nat) (newId : Nat)
  | remover (hid : Nat) (target : Nat)
  | failing (hid : Nat)
  deriving DecidableEq, Repr

/-- The subscriber's identity. -/
def Handler.hid : Handler → Nat
  | Handler.plain i => i
  | Handler.adder i _ => i
  | Handler.remover i _ => i
  | Handler.failing i => i

/-- Remove the first handler with the given id
(`list.remove` via `BasePlugin.remove_event_handler`). -/
def removeHandlerById (hs : List Handler) (target : Nat) : List Handler :=
  match hs with
  | [] => []
  | h :: rest =>
      if h.hid = target then rest else h :: removeHandlerById rest target

/-- Run one handler body: the effect it has on the handler list, or the
exception it raises. -/
def invokeHandler (h : Handler) (hs : List Handler) :
    Except PyErr (List Handler) :=
  match h with
  | Handler.plain _ => Except.ok hs
  | Handler.adder _ n => Except.ok (hs ++ [Handler.plain n])
  | Handler.remover _ t => Except.ok (removeHandlerById hs t)
  | Handler.failing _ => Except.error (PyErr.exc "handler failed")

/-- The observable outcome of one `_emit_event` call: the handler list
after the emission, the ids invoked (in invocation order), and the log
entries written while handling subscriber failures. -/
structure EmitResult where
  handlers : List Handler
  delivered : List Nat
  log : List String
  deriving DecidableEq, Repr

/-- The `for handler in self._event_handlers` loop from index `i`, against
the live list.  Each iteration reads `handlers[i]`, invokes it, and on an
exception executes the `except` body — which is `pass`, so nothing is
appended to the log.  `fuel` bounds the iteration count (the loop itself
stops as soon as `i` reaches the current length). -/
def emitFrom (fuel : Nat) (i : Nat) (hs : List Handler) (acc : List Nat)
    (lg : List String) : EmitResult :=
  match fuel with
  | 0 => { handlers := hs, delivered := acc, log := lg }
  | fuel + 1 =>
      match hs[i]? with
      | none => { handlers := hs, delivered := acc, log := lg }
      | some h =>
          match invokeHandler h hs with
          | Except.ok hs2 => emitFrom fuel (i + 1) hs2 (acc ++ [h.hid]) lg
          | Except.error _ => emitFrom fuel (i + 1) hs (acc ++ [h.hid]) lg

/-- One `_emit_event` call on the given subscriber list.  Each invoked
handler can append at most one handler, and appended handlers are plain,
so `2 * |hs| + 1` iterations always cover the loop. -/
def emitEvent (hs : List Handler) : EmitResult :=
  emitFrom (2 * hs.length + 1) 0 hs [] []

/-- A handler whose body does not mutate the subscriber list. -/
def Handler.nonMutating : Handler → Bool
  | Handler.plain _ => true
  | Handler.failing _ => true
  | _ => false

theorem invokeHandler_nonMutating {h : Handler} {hs : List Handler}
    (hnm : h.nonMutating = true) :
    invokeHandler h hs = Except.ok hs ∨
      (invokeHandler h hs).isOk = false := by
  cases h with
  | plain i => exact Or.inl rfl
  | adder i n => cases hnm
  | remover i t => cases hnm
  | failing i => exact Or.inr rfl

theorem emitFrom_nonMutating (hs : List Handler)
    (hnm : ∀ h ∈ hs, h.nonMutating = true) :
    ∀ fuel i acc lg, hs.length - i ≤ fuel →
      emitFrom fuel i hs acc lg =
        { handlers := hs,
          delivered := acc ++ ((hs.drop i).map Handler.hid),
          log := lg } := by
  intro fuel
  induction fuel with
  | zero =>
      intro i acc lg hfuel
      have hi : hs.length ≤ i := by omega
      rw [List.drop_eq_nil_of_le hi]
      simp [emitFrom]
  | succ fuel ih =>
      intro i acc lg hfuel
      by_cases hlt : i < hs.length
      · have hget : hs[i]? = some (hs.get ⟨i, hlt⟩) := by
          rw [List.getElem?_eq_getElem hlt]
          rfl
        have hmem : hs.get ⟨i, hlt⟩ ∈ hs := hs.get_mem i hlt
        have hnm2 := hnm _ hmem
        have hdrop : hs.drop i =
            hs.get ⟨i, hlt⟩ :: hs.drop (i + 1) := by
          rw [List.drop_eq_getElem_cons hlt]
          rfl
        simp only [emitFrom, hget]
        cases hh : hs.get ⟨i, hlt⟩ with
        | plain j =>
            simp only [invokeHandler]
            rw [ih (i + 1) (acc ++ [(Handler.plain j).hid]) lg (by omega)]
            rw [hdrop, hh]
            simp [Handler.hid]
        | adder j n => rw [hh] at hnm2; cases hnm2
        | remover j t => rw [hh] at hnm2; cases hnm2
        | failing j =>
            simp only [invokeHandler]
            rw [ih (i + 1) (acc ++ [(Handler.failing j).hid]) lg (by omega)]
            rw [hdrop, hh]
            simp [Handler.hid]
      · have hnone : hs[i]? = none := by
          rw [List.getElem?_eq_none]
          omega
        have hdrop : hs.drop i = [] := List.drop_eq_nil_of_le (by omega)
        simp [emitFrom, hnone, hdrop]

/-- `_emit_event` on a subscriber list none of whose handlers mutate the
list: every registered subscriber is invoked, once each, in registration
order, the list is unchanged afterwards, and nothing is logged. -/
theorem emitEvent_nonMutating (hs : List Handler)
    (hnm : ∀ h ∈ hs, h.nonMutating = true) :
    emitEvent hs =
      { handlers := hs, delivered := hs.map Handler.hid, log := [] } := by
  rw [emitEvent, emitFrom_nonMutating hs hnm _ _ _ _ (by omega)]
  simp

/-! ### The example plugin modules

`src/plugins/examples/philips_hue.py` line 8 imports only
`BasePlugin, PluginInfo, PluginType, DeviceCapability, DeviceInfo` from
`..base`; `src/plugins/examples/xiaomi_sensors.py` line 9 imports the same
names.  Neither imports `PluginStatus`, yet both use it; evaluating the
name `PluginStatus` in either module raises `NameError`.  Name resolution
is modelled per module over the names the module actually defines. -/

/-- Global names bound in the `philips_hue` module: its import lines and
its own class. -/
def philipsHueModuleNames : List String :=
  ["asyncio", "BasePlugin", "PluginInfo", "PluginType", "DeviceCapability",
   "DeviceInfo", "PhilipsHuePlugin"]

/-- Resolve a global name inside `philips_hue.py`. -/
def hueResolve (n : String) : Except PyErr Unit :=
  if n ∈ philipsHueModuleNames then Except.ok ()
  else Except.error (PyErr.nameError n)

/-- Global names bound in the `xiaomi_sensors` module. -/
def xiaomiModuleNames : List String :=
  ["asyncio", "random", "BasePlugin", "PluginInfo", "PluginType",
   "DeviceCapability", "DeviceInfo", "XiaomiSensorsPlugin"]

/-- Resolve a global name inside `xiaomi_sensors.py`. -/
def xiaomiResolve (n : String) : Except PyErr Unit :=
  if n ∈ xiaomiModuleNames then Except.ok ()
  else Except.error (PyErr.nameError n)

/-- The fields of a `PhilipsHuePlugin` object the lifecycle methods read
and write. -/
structure HuePlugin where
  bridge_ip : String
  username : String
  status : PluginStatus
  deriving DecidableEq, Repr

/-- `PhilipsHuePlugin.__init__`: reads `bridge_ip` (default
`"192.168.1.100"`) and `username` (default `""`) from the config;
`BasePlugin.__init__` sets status `LOADED`. -/
def hueNew (config : List (String × String)) : HuePlugin :=
  { bridge_ip := (dictGet config "bridge_ip").getD "192.168.1.100",
    username := (dictGet config "username").getD "",
    status := PluginStatus.loaded }

/-- `PhilipsHuePlugin.initialize` (philips_hue.py lines 41-59).  The `try`
body returns `False` when `bridge_ip` or `username` is falsy; otherwise it
executes `self.status = PluginStatus.LOADED`, which evaluates the global
`PluginStatus` — a `NameError` in this module.  The `except` handler then
executes `self.status = PluginStatus.ERROR`, which raises the same
`NameError`, and that exception propagates to the caller. -/
def hueInit (self : HuePlugin) : Except PyErr (HuePlugin × Bool) :=
  let body : Except PyErr (HuePlugin × Bool) :=
    if self.bridge_ip = "" ∨ self.username = "" then Except.ok (self, false)
    else
      match hueResolve "PluginStatus" with
      | Except.ok _ =>
          Except.ok ({ self with status := PluginStatus.loaded }, true)
      | Except.error e => Except.error e
  match body with
  | Except.ok r => Except.ok r
  | Except.error _ =>
      match hueResolve "PluginStatus" with
      | Except.ok _ =>
          Except.ok ({ self with status := PluginStatus.error }, false)
      | Except.error e => Except.error e

/-- `PhilipsHuePlugin.start` (philips_hue.py lines 61-70).
`asyncio.create_task(...)` succeeds (a loop is running); the next
statement `self.status = PluginStatus.RUNNING` raises `NameError`, and the
`except` handler's `self.status = PluginStatus.ERROR` raises it again. -/
def hueStart (self : HuePlugin) : Except PyErr (HuePlugin × Bool) :=
  let body : Except PyErr (HuePlugin × Bool) :=
    match hueResolve "PluginStatus" with
    | Except.ok _ =>
        Except.ok ({ self with status := PluginStatus.running }, true)
    | Except.error e => Except.error e
  match body with
  | Except.ok r => Except.ok r
  | Except.error _ =>
      match hueResolve "PluginStatus" with
      | Except.ok _ =>
          Except.ok ({ self with status := PluginStatus.error }, false)
      | Except.error e => Except.error e

/-- `PhilipsHuePlugin.stop` (philips_hue.py lines 72-79): the `try` body's
`self.status = PluginStatus.STOPPED` raises `NameError`; the bare
`except Exception` catches it and returns `False` with status unchanged. -/
def hueStop (self : HuePlugin) : Except PyErr (HuePlugin × Bool) :=
  match hueResolve "PluginStatus" with
  | Except.ok _ =>
      Except.ok ({ self with status := PluginStatus.stopped }, true)
  | Except.error _ => Except.ok (self, false)

/-- The fields of a `XiaomiSensorsPlugin` object the lifecycle methods
read and write. -/
structure XiaomiPlugin where
  gateway_ip : String
  gateway_token : String
  status : PluginStatus
  deriving DecidableEq, Repr

/-- `XiaomiSensorsPlugin.__init__`: `gateway_ip` defaults to
`"192.168.1.50"`, `gateway_token` to `""`. -/
def xiaomiNew (config : List (String × String)) : XiaomiPlugin :=
  { gateway_ip := (dictGet config "gateway_ip").getD "192.168.1.50",
    gateway_token := (dictGet config "gateway_token").getD "",
    status := PluginStatus.loaded }

/-- `XiaomiSensorsPlugin.start` (xiaomi_sensors.py lines 62-71): same
shape as `hueStart`; the module also lacks the `PluginStatus` import. -/
def xiaomiStart (self : XiaomiPlugin) : Except PyErr (XiaomiPlugin × Bool) :=
  let body : Except PyErr (XiaomiPlugin × Bool) :=
    match xiaomiResolve "PluginStatus" with
    | Except.ok _ =>
        Except.ok ({ self with status := PluginStatus.running }, true)
    | Except.error e => Except.error e
  match body with
  | Except.ok r => Except.ok r
  | Except.error _ =>
      match xiaomiResolve "PluginStatus" with
      | Except.ok _ =>
          Except.ok ({ self with status := PluginStatus.error }, false)
      | Except.error e => Except.error e

/-! ### The plugin manager (`src/plugins/manager.py`)

`load_plugin` consults `self.plugins` and `self.plugin_classes`.  What a
registered class does when constructed and initialized is abstracted into
the class record: the constructed instance and the outcome of
`await plugin.initialize()` (a bool, or a raised exception, which
`load_plugin`'s `except` turns into `False`). -/

/-- A registered plugin class: constructing it and calling `initialize`
yields this outcome. -/
structure PluginClass where
  inst : PluginState
  initRes : Except PyErr Bool
  deriving Repr

/-- The manager state `load_plugin` touches. -/
structure Manager where
  plugins : List (String × PluginState)
  plugin_classes : List (String × PluginClass)

/-- `PluginManager.load_plugin` (manager.py lines 113-143).  Returns the
new manager state, the bool result, and how many times a plugin instance
was constructed and initialized during the call. -/
def loadPlugin (m : Manager) (name : String) : Manager × Bool × Nat :=
  if dictContains m.plugins name then (m, true, 0)
  else
    match dictGet m.plugin_classes name with
    | none => (m, false, 0)
    | some c =>
        match c.initRes with
        | Except.ok true =>
            ({ m with plugins := dictSet m.plugins name c.inst }, true, 1)
        | Except.ok false => (m, false, 1)
        | Except.error _ => (m, false, 1)

/-- `PluginManager.discover_all_devices` (manager.py lines 236-248): for
every loaded instance, `try` its `discover_devices()`; a raised exception
contributes `[]` under that instance's key.  Each loaded instance is
abstracted to its name and the outcome of its `discover_devices()` call. -/
def discoverAllDevices
    (plugins : List (String × Except PyErr (List DeviceInfo))) :
    List (String × List DeviceInfo) :=
  plugins.map (fun p =>
    (p.1, match p.2 with
          | Except.ok ds => ds
          | Except.error _ => []))

/-! ### Further dict and trace lemmas used by the claims -/

theorem dictGet_dictDel_none_of_none {α : Type} (d : List (String × α))
    (k k2 : String) (h : dictGet d k = none) :
    dictGet (dictDel d k2) k = none := by
  induction d with
  | nil => rfl
  | cons hd tl ih =>
      obtain ⟨k3, v3⟩ := hd
      by_cases h3 : k3 = k
      · subst h3
        simp [dictGet] at h
      · simp only [dictGet, h3, if_false] at h
        by_cases h4 : k3 = k2
        · simp only [dictDel, if_pos h4]
          exact h
        · simp only [dictDel, if_neg h4, dictGet, h3, if_false]
          exact ih h

theorem filter_key_eq_nil {α : Type} (d : List (String × α)) (k : String)
    (h : k ∉ d.map Prod.fst) : d.filter (fun p => p.1 == k) = [] := by
  induction d with
  | nil => rfl
  | cons hd tl ih =>
      obtain ⟨k2, v2⟩ := hd
      simp only [List.map_cons, List.mem_cons] at h
      push_neg at h
      have hne : (k2 == k) = false := by
        simp [h.1.symm]
      simp only [List.filter_cons, hne]
      exact ih h.2

theorem filter_key_length_one {α : Type} (d : List (String × α)) (k : String)
    (hnd : (d.map Prod.fst).Nodup) (hc : dictContains d k = true) :
    (d.filter (fun p => p.1 == k)).length = 1 := by
  induction d with
  | nil => simp [dictContains, dictGet] at hc
  | cons hd tl ih =>
      obtain ⟨k2, v2⟩ := hd
      simp only [List.map_cons, List.nodup_cons] at hnd
      by_cases h2 : k2 = k
      · subst h2
        have : tl.filter (fun p => p.1 == k2) = [] :=
          filter_key_eq_nil tl k2 hnd.1
        simp [List.filter_cons, this]
      · have hne : (k2 == k) = false := by simp [h2]
        simp only [dictContains, dictGet, h2, if_false] at hc
        simp only [List.filter_cons, hne]
        exact ih hnd.2 hc

/-- Running ops that never update device `d` leaves `d` without a state,
starting from any state where `d` has none. -/
theorem getState_none_of_noUpdate (d : String) :
    ∀ ops s, getDeviceState s d = none →
      (∀ p t, RegOp.update d p t ∉ ops) →
      getDeviceState (runOps s ops) d = none := by
  intro ops
  induction ops with
  | nil =>
      intro s h _
      exact h
  | cons op rest ih =>
      intro s h hno
      have hstep : getDeviceState (applyOp s op) d = none := by
        cases op with
        | add d2 => exact h
        | remove did =>
            simp only [getDeviceState] at h ⊢
            simp only [applyOp, removeDevice]
            by_cases hc : dictContains s.devices did
            · rw [if_pos hc]
              by_cases hc2 : dictContains s.device_states did
              · rw [if_pos hc2]
                exact dictGet_dictDel_none_of_none _ _ _ h
              · rw [if_neg hc2]
                exact h
            · rw [if_neg hc]
              exact h
        | update did p t =>
            have hne : did ≠ d := by
              intro he
              exact hno p t (he ▸ List.mem_cons_self _ _)
            simp only [getDeviceState] at h ⊢
            simp only [applyOp, updateDeviceState]
            by_cases hc : dictContains s.devices did
            · rw [if_pos hc]
              simp only
              rw [dictGet_dictSet_ne _ _ _ _ hne]
              exact h
            · rw [if_neg hc]
              exact h
      exact ih (applyOp s op) hstep
        (fun p t hm => hno p t (List.mem_cons_of_mem _ hm))

/-- Every state ever stored in `device_states` has its `online` flag set:
`update_device_state` is the only writer and it always passes
`online=True`. -/
theorem allOnline_runOps (ops : List RegOp) :
    ∀ p ∈ (runOps initState ops).device_states, p.2.online = true := by
  suffices h : ∀ ops2 s, (∀ p ∈ s.device_states, p.2.online = true) →
      ∀ p ∈ (runOps s ops2).device_states, p.2.online = true by
    exact h ops initState (fun p hp => absurd hp (by simp [initState]))
  intro ops2
  induction ops2 with
  | nil => exact fun s h => h
  | cons op rest ih =>
      intro s h
      refine ih (applyOp s op) ?_
      intro p hp
      cases op with
      | add d2 => exact h p hp
      | remove did =>
          simp only [applyOp, removeDevice] at hp
          by_cases hc : dictContains s.devices did
          · rw [if_pos hc] at hp
            by_cases hc2 : dictContains s.device_states did
            · rw [if_pos hc2] at hp
              exact h p (mem_of_mem_dictDel hp)
            · rw [if_neg hc2] at hp
              exact h p hp
          · rw [if_neg hc] at hp
            exact h p hp
      | update did pr t =>
          simp only [applyOp, updateDeviceState] at hp
          by_cases hc : dictContains s.devices did
          · rw [if_pos hc] at hp
            simp only at hp
            rcases mem_dictSet_cases hp with he | he
            · rw [he]
            · exact h p he
          · rw [if_neg hc] at hp
            exact h p hp

/-! ### Concrete fixtures used by counterexamples and witnesses -/

/-- A device descriptor with id `d1`. -/
def devA : DeviceInfo := { id := "d1", name := "Lamp A", capabilities := [] }

/-- A different descriptor with the same id `d1`. -/
def devB : DeviceInfo := { id := "d1", name := "Lamp B", capabilities := [] }

/-! ### The claims -/

/-- C1: the claim says every Plugin Contract operation converts internal
failures into a boolean result plus an error event, and in particular that
a failing `initialize` returns false and sets status ERROR rather than
raising.  The code violates this: `philips_hue.py` never imports
`PluginStatus`, so with a configured bridge_ip and username,
`PhilipsHuePlugin.initialize` raises `NameError('PluginStatus')` across
the contract boundary (the `except` handler executes
`self.status = PluginStatus.ERROR`, which raises the same `NameError`);
and on the empty-username failure path it returns False while leaving
status LOADED, not ERROR. -/
theorem C1_hueInit_raises_nameError :
    hueInit (hueNew [("bridge_ip", "10.0.0.5"), ("username", "u")]) =
      Except.error (PyErr.nameError "PluginStatus") ∧
    hueInit (hueNew []) = Except.ok (hueNew [], false) ∧
    (hueNew []).status = PluginStatus.loaded :=
  ⟨rfl, rfl, rfl⟩

/-- C5: the claim says a successful `start()` leaves RUNNING and a failing
`start()` leaves ERROR.  In the code, `start` on both example plugins
always raises `NameError('PluginStatus')` (the module-level import is
missing, and the `except` handler raises the same `NameError` before it
can assign ERROR): there is no succeeding `start` at all, and the failing
`start` leaves the status field untouched — a LOADED instance stays
LOADED, not ERROR. -/
theorem C5_start_always_raises :
    (∀ s : HuePlugin,
        hueStart s = Except.error (PyErr.nameError "PluginStatus")) ∧
    (∀ s : XiaomiPlugin,
        xiaomiStart s = Except.error (PyErr.nameError "PluginStatus")) :=
  ⟨fun _ => rfl, fun _ => rfl⟩

/-- C2 counterexample: with `d1` already registered as `devA`, a second
`add_device` with descriptor `devB` (same id) returns True — the claim
says False — and replaces the stored descriptor with `devB` — the claim
says the previous descriptor is left unchanged. -/
theorem C2_counterexample :
    (addDevice (addDevice initState devA).1 devB).2.1 = true ∧
    dictGet (addDevice (addDevice initState devA).1 devB).1.devices "d1" =
      some devB ∧
    devB ≠ devA :=
  ⟨rfl, rfl, by decide⟩

/-- C2 amended: `add_device` stores the descriptor under its id
unconditionally — overwriting any previously registered descriptor with
that id — always returns True, emits `device_added`, and leaves entries
under other ids and the state map unchanged. -/
theorem C2_addDevice_unconditional (s : PluginState) (d : DeviceInfo) :
    (addDevice s d).2.1 = true ∧
    dictGet (addDevice s d).1.devices d.id = some d ∧
    (∀ k, k ≠ d.id → dictGet (addDevice s d).1.devices k =
      dictGet s.devices k) ∧
    (addDevice s d).2.2 = [PEvent.device_added d.id] ∧
    (addDevice s d).1.device_states = s.device_states := by
  refine ⟨rfl, dictGet_dictSet_self _ _ _, ?_, rfl, rfl⟩
  intro k hk
  exact dictGet_dictSet_ne _ _ _ _ (fun h => hk h.symm)

/-- Witness for the amended C2 at a concrete registry and key. -/
theorem C2_addDevice_unconditional_witness :
    (addDevice initState devA).2.1 = true ∧
    dictGet (addDevice initState devA).1.devices "zz" =
      dictGet initState.devices "zz" :=
  ⟨(C2_addDevice_unconditional initState devA).1,
   (C2_addDevice_unconditional initState devA).2.2.1 "zz" (by decide)⟩

/-- C3 counterexample: `_emit_event` iterates the live subscriber list,
not a snapshot.  With the single subscriber `adder 5 7` — whose body
registers a new subscriber during the emission — the appended subscriber
`7` also receives the event in the same emission, so the set of invoked
subscribers is not the set registered at emission start ([5]). -/
theorem C3_counterexample :
    (emitEvent [Handler.adder 5 7]).delivered = [5, 7] ∧
    [Handler.adder 5 7].map Handler.hid = [5] ∧
    ([5, 7] : List Nat) ≠ [5] :=
  ⟨rfl, rfl, by decide⟩

/-- C3 amended: `emit` invokes subscribers by index over the live list
(no snapshot): when no subscriber mutates the list during the emission,
exactly the subscribers registered at emission start are invoked, each
once, in registration order, with nothing logged — but a subscriber
appended by a running subscriber is also invoked in that same emission. -/
theorem C3_emit_iterates_live_list :
    (∀ hs : List Handler, (∀ h ∈ hs, h.nonMutating = true) →
      (emitEvent hs).delivered = hs.map Handler.hid ∧
      (emitEvent hs).handlers = hs ∧
      (emitEvent hs).log = []) ∧
    (∀ a b : Nat, (emitEvent [Handler.adder a b]).delivered = [a, b]) := by
  constructor
  · intro hs hnm
    rw [emitEvent_nonMutating hs hnm]
    exact ⟨rfl, rfl, rfl⟩
  · intro a b
    rfl

/-- Witness for the amended C3 on a concrete subscriber list. -/
theorem C3_emit_iterates_live_list_witness :
    (emitEvent [Handler.plain 1, Handler.failing 2]).delivered = [1, 2] :=
  (C3_emit_iterates_live_list.1 [Handler.plain 1, Handler.failing 2]
    (by decide)).1

/-- C4 counterexample: when subscriber 3 raises, the `except` body in
`_emit_event` is `pass` — nothing is logged (the log is empty), so the
claim's "caught and logged" is false — although delivery does continue to
subscriber 4. -/
theorem C4_counterexample :
    (emitEvent [Handler.failing 3, Handler.plain 4]).log = [] ∧
    (emitEvent [Handler.failing 3, Handler.plain 4]).delivered = [3, 4] :=
  ⟨rfl, rfl⟩

/-- C4 amended: a subscriber failure is caught and silently discarded
(not logged): subscribers after the failing one still receive the event —
every subscriber is invoked in order — and no exception reaches the
caller of `emit`, but the log stays empty. -/
theorem C4_subscriber_failure_isolated (pre post : List Handler) (k : Nat)
    (hpre : ∀ h ∈ pre, h.nonMutating = true)
    (hpost : ∀ h ∈ post, h.nonMutating = true) :
    (emitEvent (pre ++ Handler.failing k :: post)).delivered =
      (pre ++ Handler.failing k :: post).map Handler.hid ∧
    (emitEvent (pre ++ Handler.failing k :: post)).log = [] := by
  have hnm : ∀ h ∈ pre ++ Handler.failing k :: post,
      h.nonMutating = true := by
    intro h hm
    rcases List.mem_append.mp hm with h1 | h1
    · exact hpre h h1
    · rcases List.mem_cons.mp h1 with h2 | h2
      · rw [h2]
        rfl
      · exact hpost h h2
  rw [emitEvent_nonMutating _ hnm]
  exact ⟨rfl, rfl⟩

/-- Witness for the amended C4: subscriber 2 fails, subscriber 3 still
receives the event. -/
theorem C4_subscriber_failure_isolated_witness :
    (emitEvent [Handler.plain 1, Handler.failing 2, Handler.plain 3]).delivered
      = [1, 2, 3] :=
  (C4_subscriber_failure_isolated [Handler.plain 1] [Handler.plain 3] 2
    (by decide) (by decide)).1

/-- C6: `update_device_state` returns False and changes nothing when the
id is not registered; when it is registered it stores a state stamped with
the supplied current time whose property map is exactly the supplied map
(full replacement, no merge), emits `state_changed`, returns True, and
leaves every other device's state and the device registry unchanged. -/
theorem C6_updateState_replaces (s : PluginState) (did : String)
    (props : Props) (now : Nat) :
    (dictContains s.devices did = false →
      updateDeviceState s did props now = (s, false, [])) ∧
    (dictContains s.devices did = true →
      (updateDeviceState s did props now).2.1 = true ∧
      getDeviceState (updateDeviceState s did props now).1 did =
        some { device_id := did, properties := props, last_updated := now,
               online := true } ∧
      (updateDeviceState s did props now).2.2 =
        [PEvent.state_changed did props] ∧
      (∀ k, k ≠ did →
        getDeviceState (updateDeviceState s did props now).1 k =
          getDeviceState s k) ∧
      (updateDeviceState s did props now).1.devices = s.devices) := by
  constructor
  · intro hc
    have hneg : ¬dictContains s.devices did = true := by simp [hc]
    simp only [updateDeviceState]
    rw [if_neg hneg]
  · intro hc
    simp only [updateDeviceState]
    rw [if_pos hc]
    refine ⟨rfl, dictGet_dictSet_self _ _ _, rfl, ?_, rfl⟩
    intro k hk
    exact dictGet_dictSet_ne _ _ _ _ (fun h => hk h.symm)

/-- Witness for C6: update on an unregistered id is a no-op returning
False; update on the registered id `d1` stores exactly the supplied map,
stamped with the supplied time, online. -/
theorem C6_updateState_replaces_witness :
    updateDeviceState initState "nope" [] 7 = (initState, false, []) ∧
    (updateDeviceState (addDevice initState devA).1 "d1"
        [("power", PyValue.pybool true)] 9).2.1 = true ∧
    getDeviceState (updateDeviceState (addDevice initState devA).1 "d1"
        [("power", PyValue.pybool true)] 9).1 "d1" =
      some { device_id := "d1",
             properties := [("power", PyValue.pybool true)],
             last_updated := 9, online := true } :=
  ⟨(C6_updateState_replaces initState "nope" [] 7).1 (by decide),
   ((C6_updateState_replaces (addDevice initState devA).1 "d1"
      [("power", PyValue.pybool true)] 9).2 (by decide)).1,
   ((C6_updateState_replaces (addDevice initState devA).1 "d1"
      [("power", PyValue.pybool true)] 9).2 (by decide)).2.1⟩

/-- C7: over every trace of registry operations from a fresh instance:
a device with no `update_device_state` in the trace has no state; an
update on a registered device stores exactly the supplied map stamped with
the supplied time; the stored timestamp never decreases when the clock
does not go backwards; and `remove_device` followed by `get_device_state`
is always absent — including for ids that were never added. -/
theorem C7_getState_algebra (ops : List RegOp) (d : String) :
    ((∀ p t, RegOp.update d p t ∉ ops) →
      getDeviceState (runOps initState ops) d = none) ∧
    (∀ props t, dictContains (runOps initState ops).devices d = true →
      getDeviceState
          (updateDeviceState (runOps initState ops) d props t).1 d =
        some { device_id := d, properties := props, last_updated := t,
               online := true }) ∧
    (∀ st props t st2,
      getDeviceState (runOps initState ops) d = some st →
      st.last_updated ≤ t →
      getDeviceState
          (updateDeviceState (runOps initState ops) d props t).1 d =
        some st2 →
      st.last_updated ≤ st2.last_updated) ∧
    getDeviceState (removeDevice (runOps initState ops) d).1 d = none := by
  obtain ⟨hdev, hst, hsub⟩ := goodState_runOps ops
  refine ⟨?_, ?_, ?_, ?_⟩
  · intro hno
    exact getState_none_of_noUpdate d ops initState rfl hno
  · intro props t hc
    simp only [updateDeviceState]
    rw [if_pos hc]
    exact dictGet_dictSet_self _ _ _
  · intro st props t st2 hsome hle h2
    have hmem := dictGet_mem hsome
    have hc : dictContains (runOps initState ops).devices d = true :=
      hsub _ hmem
    have hnew : getDeviceState
        (updateDeviceState (runOps initState ops) d props t).1 d =
        some { device_id := d, properties := props, last_updated := t,
               online := true } := by
      simp only [updateDeviceState]
      rw [if_pos hc]
      exact dictGet_dictSet_self _ _ _
    rw [hnew] at h2
    cases h2
    exact hle
  · simp only [removeDevice]
    by_cases hc : dictContains (runOps initState ops).devices d
    · rw [if_pos hc]
      by_cases hc2 : dictContains (runOps initState ops).device_states d
      · rw [if_pos hc2]
        exact dictGet_dictDel_self _ _ hst
      · rw [if_neg hc2]
        cases hdg : dictGet (runOps initState ops).device_states d with
        | none => exact hdg
        | some st => exact absurd (by simp [dictContains, hdg]) hc2
    · rw [if_neg hc]
      cases hdg : dictGet (runOps initState ops).device_states d with
      | none => exact hdg
      | some st => exact absurd (hsub _ (dictGet_mem hdg)) hc

/-- Witness for C7 at a concrete trace: after only adding `d1` its state
is absent; updating it stores exactly the supplied map at the supplied
time; removing it after an update leaves its state absent. -/
theorem C7_getState_algebra_witness :
    getDeviceState (runOps initState [RegOp.add devA]) "d1" = none ∧
    getDeviceState
        (updateDeviceState (runOps initState [RegOp.add devA]) "d1"
          [("power", PyValue.pybool true)] 5).1 "d1" =
      some { device_id := "d1",
             properties := [("power", PyValue.pybool true)],
             last_updated := 5, online := true } ∧
    getDeviceState
        (removeDevice
          (runOps initState [RegOp.add devA, RegOp.update "d1" [] 3])
          "d1").1 "d1" = none :=
  ⟨(C7_getState_algebra [RegOp.add devA] "d1").1
      (by intro p t h; simp at h),
   (C7_getState_algebra [RegOp.add devA] "d1").2.1
      [("power", PyValue.pybool true)] 5 (by decide),
   (C7_getState_algebra [RegOp.add devA, RegOp.update "d1" [] 3]
      "d1").2.2.2⟩

/-- C8: `discover_all_devices` returns one key per loaded instance, in
iteration order; an instance whose `discover_devices` returned normally
contributes its full list under its key, and an instance whose discovery
raised contributes an empty list under its key — one failure does not
abort or perturb the others. -/
theorem C8_discoverAll_isolated
    (plugins : List (String × Except PyErr (List DeviceInfo))) :
    (discoverAllDevices plugins).map Prod.fst = plugins.map Prod.fst ∧
    (∀ n ds, (n, Except.ok ds) ∈ plugins →
      (n, ds) ∈ discoverAllDevices plugins) ∧
    (∀ n e, (n, Except.error e) ∈ plugins →
      (n, ([] : List DeviceInfo)) ∈ discoverAllDevices plugins) := by
  refine ⟨?_, ?_, ?_⟩
  · simp only [discoverAllDevices, List.map_map]
    rfl
  · intro n ds hm
    exact List.mem_map_of_mem _ hm
  · intro n e hm
    exact List.mem_map_of_mem _ hm

/-- Two loaded instances, one whose discovery succeeds with `[devA]` and
one whose discovery raises. -/
def twoPlugins : List (String × Except PyErr (List DeviceInfo)) :=
  [("philips_hue", Except.ok [devA]),
   ("xiaomi_sensors", Except.error (PyErr.exc "boom"))]

/-- Witness for C8: the failing instance's key maps to an empty list, the
healthy instance's key to its full list. -/
theorem C8_discoverAll_isolated_witness :
    ("philips_hue", [devA]) ∈ discoverAllDevices twoPlugins ∧
    ("xiaomi_sensors", ([] : List DeviceInfo)) ∈
      discoverAllDevices twoPlugins :=
  ⟨(C8_discoverAll_isolated twoPlugins).2.1 "philips_hue" [devA]
      (List.mem_cons_self _ _),
   (C8_discoverAll_isolated twoPlugins).2.2 "xiaomi_sensors"
      (PyErr.exc "boom")
      (List.mem_cons_of_mem _ (List.mem_cons_self _ _))⟩

/-- A manager with no loaded instances and no registered classes. -/
def emptyManager : Manager := { plugins := [], plugin_classes := [] }

/-- Helper: `load_plugin` on an already-loaded name returns True at once,
constructing and initializing nothing. -/
theorem loadPlugin_already_loaded (m : Manager) (name : String)
    (hc : dictContains m.plugins name = true) :
    loadPlugin m name = (m, true, 0) := by
  simp only [loadPlugin]
  rw [if_pos hc]

/-- C9 counterexample: the claim quantifies over every plugin name and
configuration, but for a name with no registered class both `load_plugin`
calls return False and no instance is stored — not "exactly one instance
and true both times". -/
theorem C9_counterexample :
    (loadPlugin emptyManager "ghost").2.1 = false ∧
    (loadPlugin (loadPlugin emptyManager "ghost").1 "ghost").2.1 = false ∧
    (loadPlugin (loadPlugin emptyManager "ghost").1 "ghost").1.plugins =
      [] :=
  ⟨rfl, rfl, rfl⟩

/-- C9 amended: provided the first `load_plugin(name, cfg)` call returns
True (the class is registered and its `initialize` returned True without
raising), a second call without an intervening unload returns True while
constructing no second instance and not re-running `initialize`, leaves
the manager unchanged, and exactly one instance is stored under the
name. -/
theorem C9_load_idempotent_after_success (m : Manager) (name : String)
    (hnd : (m.plugins.map Prod.fst).Nodup)
    (h1 : (loadPlugin m name).2.1 = true) :
    loadPlugin (loadPlugin m name).1 name =
      ((loadPlugin m name).1, true, 0) ∧
    ((loadPlugin m name).1.plugins.filter
        (fun p => p.1 == name)).length = 1 := by
  by_cases hc : dictContains m.plugins name
  · have heq := loadPlugin_already_loaded m name hc
    rw [heq]
    exact ⟨loadPlugin_already_loaded m name hc,
      filter_key_length_one _ _ hnd hc⟩
  · cases hcl : dictGet m.plugin_classes name with
    | none =>
        have : loadPlugin m name = (m, false, 0) := by
          simp only [loadPlugin]
          rw [if_neg hc, hcl]
        rw [this] at h1
        cases h1
    | some c =>
        cases hres : c.initRes with
        | ok b =>
            cases b with
            | true =>
                have heq : loadPlugin m name =
                    ({ m with plugins := dictSet m.plugins name c.inst },
                      true, 1) := by
                  simp only [loadPlugin]
                  rw [if_neg hc, hcl]
                  simp only []
                  rw [hres]
                have hc1 : dictContains
                    (dictSet m.plugins name c.inst) name = true := by
                  simp [dictContains, dictGet_dictSet_self]
                rw [heq]
                exact ⟨loadPlugin_already_loaded _ _ hc1,
                  filter_key_length_one _ _
                    (keys_dictSet_nodup _ _ _ hnd) hc1⟩
            | false =>
                have : loadPlugin m name = (m, false, 1) := by
                  simp only [loadPlugin]
                  rw [if_neg hc, hcl]
                  simp only []
                  rw [hres]
                rw [this] at h1
                cases h1
        | error e =>
            have : loadPlugin m name = (m, false, 1) := by
              simp only [loadPlugin]
              rw [if_neg hc, hcl]
              simp only []
              rw [hres]
            rw [this] at h1
            cases h1

/-- A manager with one registered class whose `initialize` succeeds. -/
def readyManager : Manager :=
  { plugins := [],
    plugin_classes :=
      [("philips_hue", { inst := initState, initRes := Except.ok true })] }

/-- Witness for the amended C9 on a concrete manager whose registered
class initializes successfully. -/
theorem C9_load_idempotent_after_success_witness :
    loadPlugin (loadPlugin readyManager "philips_hue").1 "philips_hue" =
      ((loadPlugin readyManager "philips_hue").1, true, 0) ∧
    ((loadPlugin readyManager "philips_hue").1.plugins.filter
        (fun p => p.1 == "philips_hue")).length = 1 :=
  C9_load_idempotent_after_success readyManager "philips_hue"
    List.nodup_nil rfl

/-- C10: every `DeviceState` ever stored has `online = true`
(`update_device_state` is the only writer and always sets it), so
`health_check`'s online-device count always equals the number of devices
with any recorded state. -/
theorem C10_states_always_online (ops : List RegOp) :
    (∀ k st,
      dictGet (runOps initState ops).device_states k = some st →
      st.online = true) ∧
    (healthCheck (runOps initState ops)).online_devices =
      (runOps initState ops).device_states.length := by
  have hall := allOnline_runOps ops
  constructor
  · intro k st h
    exact hall (k, st) (dictGet_mem h)
  · simp only [healthCheck]
    rw [List.filter_eq_self.mpr hall]

/-- Witness for C10 at a concrete trace with one stored state. -/
theorem C10_states_always_online_witness :
    ({ device_id := "d1", properties := [], last_updated := 3,
       online := true } : DeviceState).online = true ∧
    (healthCheck (runOps initState
        [RegOp.add devA, RegOp.update "d1" [] 3])).online_devices =
      (runOps initState
        [RegOp.add devA, RegOp.update "d1" [] 3]).device_states.length :=
  ⟨(C10_states_always_online [RegOp.add devA, RegOp.update "d1" [] 3]).1
      "d1" { device_id := "d1", properties := [], last_updated := 3,
             online := true } (by decide),
   (C10_states_always_online [RegOp.add devA, RegOp.update "d1" [] 3]).2⟩

end DomoHub
